import Mathlib

/-
Verification of the fan-out/fan-in harness of the M6_Potok repository
(files level2.py, level3.py, level4.py) against its specification.

Shallow embedding conventions:
- the `requests` library is modelled by a function `Net` from a URL and a
  timeout (in seconds) to either the response text or a raised
  `requests.RequestException` (an `Except` value);
- thread scheduling in `run_parallel` is modelled by an explicit completion
  order: each worker thread appends exactly one result to the shared list,
  and under the CPython GIL the appends are atomic, so the shared list is
  exactly the fetch results listed in the order the workers completed.  A
  completion order is any permutation of the input indices;
- wall-clock time in level2.py is modelled by an idealized discrete clock:
  `time.sleep(d)` advances the clock of its thread by `d`, thread creation
  and `start()` are instantaneous, and `join()` blocks the main thread until
  the joined thread's finish time.
-/

namespace M6Potok

/-- an exception raised by `requests.get` (`requests.RequestException`):
timeout, connection failure, or HTTP status error. -/
inductive ReqException where
  | timeout (msg : String)
  | connectionError (msg : String)
  | httpStatus (msg : String)
deriving DecidableEq, Repr

/-- the message `str(e)` of a `requests.RequestException`. -/
def excMessage : ReqException → String
  | ReqException.timeout msg => msg
  | ReqException.connectionError msg => msg
  | ReqException.httpStatus msg => msg

/-- behaviour of the network as seen through `requests.get`: given a URL and
a timeout in seconds, either the response text (`response.text`) or a raised
`requests.RequestException`. -/
def Net : Type := String → Nat → Except ReqException String

/-- result of calling a Python function: a normal return value, or an
uncaught exception propagating out of the call. -/
inductive PyResult (α : Type) where
  | ret (val : α)
  | raised (e : ReqException)
deriving DecidableEq

/-- a `try: body except requests.RequestException as e: return handler e`
block: every `RequestException` raised by the body is caught and turned into
a normal return value of the handler. -/
def tryExcept (body : Except ReqException String) (handler : ReqException → String) :
    PyResult String :=
  match body with
  | Except.ok v => PyResult.ret v
  | Except.error e => PyResult.ret (handler e)

/-- the error message produced by `get_html` on a request failure:
`f"Ошибка при загрузке {link}: {e}"`. -/
def errorText (link : String) (e : ReqException) : String :=
  "Ошибка при загрузке " ++ link ++ ": " ++ excMessage e

/-- `get_html(link)` from level3.py, with exception propagation explicit:
it calls `requests.get(link, timeout=5)` inside a `try` block, returns
`response.text` on success, and on a `requests.RequestException` returns the
formatted error message instead. -/
def get_html_call (net : Net) (link : String) : PyResult String :=
  tryExcept (net link 5) (fun e => errorText link e)

/-- the string value returned by `get_html(link)`: the page text on success,
or the formatted error message on a request failure. -/
def get_html (net : Net) (link : String) : String :=
  match net link 5 with
  | Except.ok text => text
  | Except.error e => errorText link e

/-- `run_sequential(links)` from level3.py: start from an empty `results`
list and, for each link in order, append `get_html(link)`. -/
def run_sequential (net : Net) (links : List String) : List String :=
  links.foldl (fun results link => results ++ [get_html net link]) []

/-- `run_parallel(links)` from level3.py: one worker thread per link, each
worker appends `get_html(link)` for its own link to the shared `results`
list; `order` lists the input indices in the order the workers completed
(and hence appended). -/
def run_parallel (net : Net) (order : List Nat) (links : List String) : List String :=
  order.map (fun i => get_html net (links.getD i ""))

/-- a completion order is a permutation of the input indices: every spawned
worker thread appends exactly once, and `join` waits for all of them. -/
def ValidOrder (order : List Nat) (links : List String) : Prop :=
  List.Perm order (List.range links.length)

/- level2.py: 5 threads each running `get_thread`, which sleeps 1 second.
Idealized discrete-time model: `time.sleep(d)` advances the clock of its
thread by `d`; creating and starting a thread is instantaneous; `join`
blocks the main thread until the joined thread finishes. -/

/-- the duration of one `get_thread` call: `time.sleep(1)`. -/
def get_thread_sleep : Nat := 1

/-- a started thread in the idealized timed model: the clock value at which
`start()` was called and the duration of the sleep its target performs. -/
structure ThreadT where
  startedAt : Nat
  sleepDur : Nat
deriving DecidableEq, Repr

/-- the clock value at which a started thread finishes. -/
def ThreadT.finishAt (t : ThreadT) : Nat := t.startedAt + t.sleepDur

/-- joining a list of threads in order: each `join` blocks the main thread
until that thread's finish time (or returns at once if it already finished). -/
def joinAll (clock : Nat) (ts : List ThreadT) : Nat :=
  ts.foldl (fun c t => max c t.finishAt) clock

/-- the sequential part of level2.py `__main__`: `get_thread(i + 1)` is
called 5 times in a row, each advancing the clock by its sleep duration;
the value is the elapsed clock time of the whole loop. -/
def level2_seq_duration : Nat :=
  (List.range 5).foldl (fun clock _i => clock + get_thread_sleep) 0

/-- the parallel part of level2.py `__main__`: 5 threads are created and all
started (instantaneously, so each starts at clock 0), then all joined; the
value is the clock after the last join, i.e. the elapsed wall-clock time. -/
def level2_par_duration : Nat :=
  joinAll 0 ((List.range 5).map (fun _i => ThreadT.mk 0 get_thread_sleep))

/- level4.py: `calculate_new_column` and its collaborators. -/

/-- a pandas DataFrame as read from an Excel file: named integer columns
(in order) plus the number of rows (`len(df)`). -/
structure DataFrame where
  cols : List (String × List Int)
  nrows : Nat
deriving DecidableEq, Repr

/-- the column names, `list(df.columns)`. -/
def DataFrame.columns (df : DataFrame) : List String :=
  df.cols.map Prod.fst

/-- `df[name]`: the data of a named column (empty if absent; only ever used
on present columns). -/
def DataFrame.getCol (df : DataFrame) (name : String) : List Int :=
  (((df.cols.find? (fun c => c.fst = name)).map Prod.snd)).getD []

/-- `df[name] = vals`: replace the column if present, else append it. -/
def DataFrame.setCol (df : DataFrame) (name : String) (vals : List Int) : DataFrame :=
  if (df.cols.map Prod.fst).contains name then
    ⟨df.cols.map (fun c => if c.fst = name then (name, vals) else c), df.nrows⟩
  else
    ⟨df.cols ++ [(name, vals)], df.nrows⟩

/-- the file-system and pandas collaborators of `calculate_new_column`:
`os.path.exists`, `os.path.getsize`, `pd.read_excel` (which may raise) and
`df.to_excel` (which may raise). -/
structure FileEnv where
  os_path_exists : String → Bool
  os_path_getsize : String → Nat
  pd_read_excel : String → Except String DataFrame
  df_to_excel : String → DataFrame → Except String Unit

/-- `os.path.basename` on a POSIX path: the part after the last slash. -/
def os_path_basename (p : String) : String :=
  ((p.splitOn "/").getLast?).getD p

/-- Python `repr` of a list of strings, as printed by
`f"{list(df.columns)}"`: e.g. `[\x27Product\x27, \x27Price\x27]`. -/
def pyListRepr (cols : List String) : String :=
  "[" ++ String.intercalate ", " (cols.map (fun c => "\x27" ++ c ++ "\x27")) ++ "]"

/-- the value returned by `calculate_new_column`: either an error-message
string, or the result dict `{filename, columns_added, total_sum,
rows_processed, status}`. -/
inductive CalcResult where
  | errorMessage (msg : String)
  | record (filename : String) (columns_added : List String) (total_sum : Int)
      (rows_processed : Nat) (status : String)
deriving DecidableEq, Repr

/-- `calculate_new_column(filename)` from level4.py: inside a
`try/except Exception` block it returns an error string if the file does not
exist or is zero bytes, reads the file (a raised read error is caught and
turned into the generic error string), returns an error string if the
`Price` or `Quantity` column is absent, otherwise adds the
`Total = Price * Quantity` column, writes the file back (a raised write
error is likewise caught) and returns the result dict. -/
def calculate_new_column (env : FileEnv) (filename : String) : CalcResult :=
  if env.os_path_exists filename = false then
    CalcResult.errorMessage ("❌ Файл не существует: \x27" ++ filename ++ "\x27")
  else if env.os_path_getsize filename = 0 then
    CalcResult.errorMessage ("❌ Файл пустой: \x27" ++ filename ++ "\x27")
  else
    match env.pd_read_excel filename with
    | Except.error e =>
        CalcResult.errorMessage ("❌ Ошибка при обработке файла \x27"
          ++ os_path_basename filename ++ "\x27: " ++ e)
    | Except.ok df =>
        if (df.columns.contains "Price" && df.columns.contains "Quantity") = false then
          CalcResult.errorMessage ("❌ В файле \x27" ++ os_path_basename filename
            ++ "\x27 отсутствуют колонки Price и/или Quantity. Доступные колонки: "
            ++ pyListRepr df.columns)
        else
          let total := List.zipWith (fun p q => p * q) (df.getCol "Price") (df.getCol "Quantity")
          let df2 := df.setCol "Total" total
          match env.df_to_excel filename df2 with
          | Except.error e =>
              CalcResult.errorMessage ("❌ Ошибка при обработке файла \x27"
                ++ os_path_basename filename ++ "\x27: " ++ e)
          | Except.ok _ =>
              CalcResult.record filename ["Total"] (df2.getCol "Total").sum df2.nrows "успешно"

/- concrete network and file-system behaviours used as test inputs. -/

/-- a network where "a" serves page "A" and every other URL serves page "B". -/
def net0 : Net := fun link _timeout =>
  if link = "a" then Except.ok "A" else Except.ok "B"

/-- five test URLs. -/
def links4 : List String := ["u0", "u1", "u2", "u3", "u4"]

/-- a network where fetching "u3" raises a timeout and every other URL
serves a page "body " followed by the URL. -/
def net4 : Net := fun link _timeout =>
  if link = "u3" then Except.error (ReqException.timeout "t")
  else Except.ok ("body " ++ link)

/-- a network whose pages all succeed with a body that happens to read like
the error message `get_html` produces for a failed fetch of "u". -/
def netS : Net := fun _link _timeout =>
  Except.ok "Ошибка при загрузке u: boom"

/-- a network where every request raises a connection error "boom". -/
def netF : Net := fun _link _timeout =>
  Except.error (ReqException.connectionError "boom")

/-- a network that behaves like `netF` on "u" at timeout 5 but differs
elsewhere. -/
def netF2 : Net := fun link _timeout =>
  if link = "u" then Except.error (ReqException.connectionError "boom")
  else Except.ok "other"

/-- a data frame whose columns lack both Price and Quantity. -/
def dfNoPQ : DataFrame := ⟨[("Product", [1, 2]), ("Cost", [3, 4])], 2⟩

/-- a file environment in which no file exists. -/
def envMissing : FileEnv :=
  ⟨fun _ => false, fun _ => 0, fun _ => Except.error "no", fun _ _ => Except.ok ()⟩

/-- a file environment in which every file exists but is zero bytes. -/
def envEmpty : FileEnv :=
  ⟨fun _ => true, fun _ => 0, fun _ => Except.error "no", fun _ _ => Except.ok ()⟩

/-- a file environment in which every file exists, is 7 bytes and reads as
a data frame without the Price and Quantity columns. -/
def envNoCols : FileEnv :=
  ⟨fun _ => true, fun _ => 7, fun _ => Except.ok dfNoPQ, fun _ _ => Except.ok ()⟩

/- helper lemmas shared between the claims -/

theorem run_sequential_foldl (net : Net) (links : List String) (acc : List String) :
    links.foldl (fun results link => results ++ [get_html net link]) acc
      = acc ++ links.map (fun link => get_html net link) := by
  induction links generalizing acc with
  | nil => simp
  | cons a t ih => simp [List.foldl_cons, ih]

theorem run_sequential_eq_map (net : Net) (links : List String) :
    run_sequential net links = links.map (fun link => get_html net link) := by
  unfold run_sequential
  simpa using run_sequential_foldl net links []

theorem map_getD_range (net : Net) (links : List String) :
    (List.range links.length).map (fun i => get_html net (links.getD i ""))
      = links.map (fun link => get_html net link) := by
  induction links with
  | nil => simp
  | cons a t ih =>
      rw [List.length_cons, List.range_succ_eq_map]
      simp only [List.map_cons, List.map_map, Function.comp_def, Nat.succ_eq_add_one,
        List.getD_cons_zero, List.getD_cons_succ]
      rw [ih]

theorem run_parallel_perm (net : Net) (order : List Nat) (links : List String)
    (h : ValidOrder order links) :
    List.Perm (run_parallel net order links)
      (links.map (fun link => get_html net link)) := by
  unfold run_parallel
  have h1 := List.Perm.map (fun i => get_html net (links.getD i "")) h
  rw [map_getD_range net links] at h1
  exact h1

/- the claims -/

/-- C2: for every list of inputs and every completion order, the runner
returns exactly one entry per input in both modes: the length of the result
list of `run_sequential` and of `run_parallel` equals the length of the
input list. -/
theorem claim2_one_result_per_input (net : Net) (links : List String) (order : List Nat)
    (h : ValidOrder order links) :
    (run_sequential net links).length = links.length
    ∧ (run_parallel net order links).length = links.length := by
  constructor
  · rw [run_sequential_eq_map, List.length_map]
  · unfold run_parallel
    rw [List.length_map]
    simpa using h.length_eq

/-- witness for C2 at a concrete network, two links and the reversed
completion order. -/
theorem claim2_one_result_per_input_witness :
    (run_sequential net0 ["a", "b"]).length = (["a", "b"] : List String).length
    ∧ (run_parallel net0 [1, 0] ["a", "b"]).length = (["a", "b"] : List String).length :=
  claim2_one_result_per_input net0 ["a", "b"] [1, 0] (by unfold ValidOrder; decide)

/-- C3: in SEQUENTIAL mode the runner calls `get_html` once per link, in
list order: `run_sequential links` equals the list of `get_html link` in
input order. -/
theorem claim3_sequential_in_order (net : Net) (links : List String) :
    run_sequential net links = links.map (fun link => get_html net link) :=
  run_sequential_eq_map net links

/-- C7: on the empty input list both runners return the empty result list
and no error: `run_sequential` on `[]` is `[]`, and `run_parallel` on `[]`
is `[]` for every valid completion order. -/
theorem claim7_empty_input (net : Net) (order : List Nat) :
    run_sequential net [] = []
    ∧ (ValidOrder order [] → run_parallel net order [] = []) := by
  refine ⟨rfl, fun h => ?_⟩
  unfold ValidOrder at h
  rw [List.length_nil, List.range_zero] at h
  have h0 : order = [] := List.length_eq_zero.mp (by simpa using h.length_eq)
  rw [h0]
  rfl

/-- witness for C7 at a concrete network and the empty order. -/
theorem claim7_empty_input_witness :
    run_sequential net0 [] = [] ∧ run_parallel net0 [] [] = [] :=
  ⟨(claim7_empty_input net0 []).1,
   (claim7_empty_input net0 []).2 (by unfold ValidOrder; decide)⟩

/-- C9: in the idealized timed model of level2.py, the 5 sequential
`get_thread` calls (each sleeping 1 second) take 5 seconds in total, while
the 5 started-then-joined threads take 1 second in total: the concurrent
elapsed time is the maximum task latency and the sequential elapsed time is
the sum of the latencies. -/
theorem claim9_concurrency_speedup :
    level2_seq_duration = 5 ∧ level2_par_duration = 1 := by
  constructor <;> rfl

/-- C10: for every network, list of links and valid completion order, the
result list of `run_parallel` is a permutation of the result list of
`run_sequential` on the same links. -/
theorem claim10_parallel_perm_sequential (net : Net) (links : List String)
    (order : List Nat) (h : ValidOrder order links) :
    List.Perm (run_parallel net order links) (run_sequential net links) := by
  rw [run_sequential_eq_map]
  exact run_parallel_perm net order links h

/-- witness for C10 at a concrete network, two links and the reversed
completion order. -/
theorem claim10_parallel_perm_sequential_witness :
    List.Perm (run_parallel net0 [1, 0] ["a", "b"]) (run_sequential net0 ["a", "b"]) :=
  claim10_parallel_perm_sequential net0 ["a", "b"] [1, 0] (by unfold ValidOrder; decide)

/-- C1 counterexample: with links ["a", "b"] and the valid completion order
[1, 0] (the worker for "b" finishes first), `run_parallel` returns
["B", "A"], so the result at index 0 is not the fetch of the input at
index 0 — results are not stored by original input position. -/
theorem claim1_counterexample :
    ValidOrder [1, 0] ["a", "b"]
    ∧ run_parallel net0 [1, 0] ["a", "b"] = ["B", "A"]
    ∧ get_html net0 "a" = "A"
    ∧ (run_parallel net0 [1, 0] ["a", "b"]).getD 0 "" ≠ get_html net0 "a" := by
  refine ⟨by unfold ValidOrder; decide, by decide, by decide, by decide⟩

/-- C1 amended: `run_parallel` appends each result in worker completion
order, so `results[i]` corresponds to `inputs[i]` only when the workers
complete in their start order; when the completion order is exactly the
input order, the parallel result equals the per-input fetch list. -/
theorem claim1_completion_order_alignment (net : Net) (links : List String) :
    run_parallel net (List.range links.length) links
      = links.map (fun link => get_html net link) :=
  map_getD_range net links

/-- C5 counterexample: `get_html` returns a plain string in both the
success and the failure case, with no kind tag: a page whose body happens to
read like the error message is indistinguishable from a failed fetch, so a
consumer cannot distinguish them by checking a kind. -/
theorem claim5_counterexample :
    netS "u" 5 = Except.ok "Ошибка при загрузке u: boom"
    ∧ netF "u" 5 = Except.error (ReqException.connectionError "boom")
    ∧ get_html netS "u" = get_html netF "u" :=
  ⟨rfl, rfl, rfl⟩

/-- C5 amended: `get_html` returns a string in both cases — the response
text on success and the formatted message "Ошибка при загрузке {link}: {e}"
on a request failure; the failure outcome is an ordinary string, not a
distinct record with a kind. -/
theorem claim5_string_in_both_cases (net : Net) (link : String) :
    (∀ t, net link 5 = Except.ok t → get_html net link = t)
    ∧ (∀ e, net link 5 = Except.error e → get_html net link = errorText link e) := by
  constructor <;> intro x hx <;> simp [get_html, hx]

/-- witness for C5 amended at a succeeding and at a failing network. -/
theorem claim5_string_in_both_cases_witness :
    get_html netS "u" = "Ошибка при загрузке u: boom"
    ∧ get_html netF "u" = errorText "u" (ReqException.connectionError "boom") :=
  ⟨(claim5_string_in_both_cases netS "u").1 _ rfl,
   (claim5_string_in_both_cases netF "u").2 _ rfl⟩

/-- C4 counterexample: with the five links of `links4`, where only "u3"
fails, and the valid completion order [3, 0, 1, 2, 4] (the failing worker
finishes first), the error string occupies index 0 of the parallel result,
not index 3: the failed input's slot is not keyed by original position. -/
theorem claim4_counterexample :
    ValidOrder [3, 0, 1, 2, 4] links4
    ∧ get_html net4 "u3" = errorText "u3" (ReqException.timeout "t")
    ∧ run_parallel net4 [3, 0, 1, 2, 4] links4
        = [errorText "u3" (ReqException.timeout "t"),
           "body u0", "body u1", "body u2", "body u4"]
    ∧ (run_parallel net4 [3, 0, 1, 2, 4] links4).getD 3 ""
        ≠ errorText "u3" (ReqException.timeout "t") := by
  refine ⟨by unfold ValidOrder; decide, by decide, by decide, by decide⟩

/-- C4 amended: for 5 inputs where only input #3's fetch fails, both
runners return normally with all 5 results and exactly one error entry; in
SEQUENTIAL mode the error string sits at index 3 with the 4 successes at the
other indices, while in CONCURRENT mode the 5 results are the same entries
permuted by completion order (so the error's index depends on which worker
finished when). -/
theorem claim4_partial_failure_isolation (order : List Nat)
    (h : ValidOrder order links4) :
    run_sequential net4 links4
      = ["body u0", "body u1", "body u2",
         errorText "u3" (ReqException.timeout "t"), "body u4"]
    ∧ List.Perm (run_parallel net4 order links4)
        ["body u0", "body u1", "body u2",
         errorText "u3" (ReqException.timeout "t"), "body u4"] := by
  have hmap : links4.map (fun link => get_html net4 link)
      = ["body u0", "body u1", "body u2",
         errorText "u3" (ReqException.timeout "t"), "body u4"] := by decide
  constructor
  · rw [run_sequential_eq_map, hmap]
  · have h1 := run_parallel_perm net4 order links4 h
    rw [hmap] at h1
    exact h1

/-- witness for C4 amended at the completion order in which the failing
worker finishes first. -/
theorem claim4_partial_failure_isolation_witness :
    run_sequential net4 links4
      = ["body u0", "body u1", "body u2",
         errorText "u3" (ReqException.timeout "t"), "body u4"]
    ∧ List.Perm (run_parallel net4 [3, 0, 1, 2, 4] links4)
        ["body u0", "body u1", "body u2",
         errorText "u3" (ReqException.timeout "t"), "body u4"] :=
  claim4_partial_failure_isolation [3, 0, 1, 2, 4] (by unfold ValidOrder; decide)

/-- C6: `get_html` passes its own timeout of 5 seconds to `requests.get`
(its result depends only on the network's behaviour at timeout 5), converts
every request failure into the returned error string, and never lets a
`RequestException` propagate out of the call. -/
theorem claim6_timeout_and_totality (net net2 : Net) (link : String) :
    (∀ e, get_html_call net link ≠ PyResult.raised e)
    ∧ (∀ e, net link 5 = Except.error e → get_html net link = errorText link e)
    ∧ (net link 5 = net2 link 5 → get_html net link = get_html net2 link) := by
  refine ⟨fun e h => ?_, fun e h => by simp [get_html, h], fun h => ?_⟩
  · unfold get_html_call tryExcept at h
    cases hn : net link 5 <;> rw [hn] at h <;> cases h
  · unfold get_html
    rw [h]

/-- witness for C6 at the always-failing network `netF` and the network
`netF2` that agrees with it on "u" at timeout 5. -/
theorem claim6_timeout_and_totality_witness :
    get_html_call netF "u" ≠ PyResult.raised (ReqException.timeout "x")
    ∧ get_html netF "u" = errorText "u" (ReqException.connectionError "boom")
    ∧ get_html netF "u" = get_html netF2 "u" :=
  ⟨(claim6_timeout_and_totality netF netF2 "u").1 (ReqException.timeout "x"),
   (claim6_timeout_and_totality netF netF2 "u").2.1 _ rfl,
   (claim6_timeout_and_totality netF netF2 "u").2.2 rfl⟩

/-- C8: `calculate_new_column` converts its error cases into a returned
error value instead of raising: a nonexistent file, a zero-byte file, and a
file whose data lacks the Price or Quantity column each yield an
error-message result identifying the failure. -/
theorem claim8_error_cases_returned (env : FileEnv) (filename : String) :
    (env.os_path_exists filename = false →
      calculate_new_column env filename
        = CalcResult.errorMessage ("❌ Файл не существует: \x27" ++ filename ++ "\x27"))
    ∧ (env.os_path_exists filename = true → env.os_path_getsize filename = 0 →
      calculate_new_column env filename
        = CalcResult.errorMessage ("❌ Файл пустой: \x27" ++ filename ++ "\x27"))
    ∧ (∀ df, env.os_path_exists filename = true → env.os_path_getsize filename ≠ 0 →
        env.pd_read_excel filename = Except.ok df →
        (df.columns.contains "Price" && df.columns.contains "Quantity") = false →
        calculate_new_column env filename
          = CalcResult.errorMessage ("❌ В файле \x27" ++ os_path_basename filename
              ++ "\x27 отсутствуют колонки Price и/или Quantity. Доступные колонки: "
              ++ pyListRepr df.columns)) := by
  refine ⟨fun h1 => ?_, fun h1 h2 => ?_, fun df h1 h2 h3 h4 => ?_⟩
  · simp [calculate_new_column, h1]
  · simp [calculate_new_column, h1, h2]
  · simp [calculate_new_column, h1, h2, h3, h4]
    intro hp hq
    simp [hp, hq] at h4

/-- witness for C8 at three concrete file environments: a missing file, an
empty file, and a file without the Price and Quantity columns. -/
theorem claim8_error_cases_returned_witness :
    calculate_new_column envMissing "a.xlsx"
      = CalcResult.errorMessage ("❌ Файл не существует: \x27" ++ "a.xlsx" ++ "\x27")
    ∧ calculate_new_column envEmpty "a.xlsx"
      = CalcResult.errorMessage ("❌ Файл пустой: \x27" ++ "a.xlsx" ++ "\x27")
    ∧ calculate_new_column envNoCols "a.xlsx"
      = CalcResult.errorMessage ("❌ В файле \x27" ++ os_path_basename "a.xlsx"
          ++ "\x27 отсутствуют колонки Price и/или Quantity. Доступные колонки: "
          ++ pyListRepr dfNoPQ.columns) :=
  ⟨(claim8_error_cases_returned envMissing "a.xlsx").1 rfl,
   (claim8_error_cases_returned envEmpty "a.xlsx").2.1 rfl rfl,
   (claim8_error_cases_returned envNoCols "a.xlsx").2.2 dfNoPQ rfl (by decide) rfl (by decide)⟩

end M6Potok
